import Mathlib

/-!
Verification of the AURA voice-agent session orchestrator.

Shallow embedding of the repository sources:
  src/voiceagent/main.py       (entrypoint, AuraAgent, connection retry loop)
  src/voiceagent/agents.py     (AgentConfig dataclass and the AGENTS registry)
  src/voiceagent/services/recorder.py (TranscriptRecorder)

Python strings are Lean `String`; Python `None` for optional strings is
`Option.none`; f-strings are written as explicit concatenations; dynamically
typed JSON values are the `JVal` inductive.  Apostrophes inside string
literals are written with the escape \x27 and braces with \x7b / \x7d; both
denote the same characters as in the Python sources.
-/

namespace Aura

/-! ## Generic string observations (used to state line / substring claims) -/

/-- Split a character list at every newline, semantics of Python
`text.split(chr(10))`: the result always has one more entry than the number
of newline characters. -/
def splitNL : List Char → List (List Char)
  | [] => [[]]
  | c :: cs =>
    if c = '\n' then [] :: splitNL cs
    else
      match splitNL cs with
      | [] => [[c]]
      | l :: ls => (c :: l) :: ls

/-- `listStartsWith pre l` is true when `pre` is an initial segment of `l`. -/
def listStartsWith : List Char → List Char → Bool
  | [], _ => true
  | _ :: _, [] => false
  | a :: as, b :: bs => a = b && listStartsWith as bs

/-- `containsSeg sub l` is true when `sub` occurs contiguously inside `l`. -/
def containsSeg (sub : List Char) : List Char → Bool
  | [] => listStartsWith sub []
  | c :: t => listStartsWith sub (c :: t) || containsSeg sub t

/-- Some line of `s` (splitting on newlines) contains `m` contiguously. -/
def hasLineContaining (s m : String) : Bool :=
  (splitNL s.data).any (containsSeg m.data)

/-- `m` occurs contiguously somewhere in `s`. -/
def strContains (s m : String) : Bool :=
  containsSeg m.data s.data

/-- Python `sep.join(items)` (agrees with it for every list, including
the empty list and singleton lists). -/
def joinSep (sep : String) : List String → String
  | [] => ""
  | [s] => s
  | s :: rest => s ++ sep ++ joinSep sep rest

/-! ## agents.py : the persona registry -/

/-- `AgentConfig` dataclass from src/voiceagent/agents.py.  The `voice`
field is a Union of a voice id string or an embedding in the source; both
registry entries leave it at the default id string, which is what we model.
`speed` and `emotion` default to None and are never set by the registry or
by the entrypoint; they are carried as optional values. -/
structure AgentConfig where
  name : String
  system_prompt : String
  voice : String := "fb277717-578b-4a56-820d-88c919747900"
  tts_model : String := "sonic-multilingual"
  llm_model : String := "gpt-4o-mini"
  language : String := "en"
  greeting : Option String := none
  speed : Option String := none
  emotion : Option (List String) := none
  deriving Repr, DecidableEq

/-- AURA_COUNSELOR from agents.py. -/
def AURA_COUNSELOR : AgentConfig :=
  { name := "AURA"
    system_prompt := "You are AURA, a supportive and professional AI mental health counselor.\n\nYour core traits:\n- Empathetic and warm, but professional\n- Listen actively and reflect emotions\n- Ask open-ended questions to encourage sharing\n- Keep responses concise (2-3 sentences typically)\n- Never give medical advice - encourage professional help when needed\n- Speak naturally as in a real conversation\n\nRemember: You\x27re having a voice conversation, not writing text. \nAvoid bullet points, numbered lists, or formatted text.\nJust speak naturally."
    greeting := some "Hi, I\x27m AURA. I\x27m here to listen and support you. How are you feeling today?" }

/-- AURA_CHINESE from agents.py. -/
def AURA_CHINESE : AgentConfig :=
  { name := "AURA"
    system_prompt := "你是 AURA，一位专业而温暖的 AI 心理咨询师。\n\n你的核心特点：\n- 富有同理心，温暖但专业\n- 积极倾听，反映情绪\n- 用开放式问题鼓励用户分享\n- 保持回应简洁（通常2-3句话）\n- 不提供医疗建议 - 在需要时建议寻求专业帮助\n- 像真实对话一样自然表达\n\n记住：你正在进行语音对话，不是写文字。\n避免使用项目符号、编号列表或格式化文本。\n自然地说话。"
    language := "zh"
    greeting := some "你好，我是 AURA。我在这里倾听和支持你。你今天感觉怎么样？" }

/-- The AGENTS registry mapping from agents.py. -/
def AGENTS : List (String × AgentConfig) :=
  [("aura", AURA_COUNSELOR), ("aura_zh", AURA_CHINESE)]

/-! ## main.py lines 200-250 : dispatch payload and config composition
(typed view).  A `DispatchPayload` is the well-typed shape of the parsed
dispatch metadata described by the spec data model: every field optional,
`memories` a list of strings.  Ill-typed JSON values are handled by the
separate `JVal` pipeline further below. -/

structure DispatchPayload where
  userId : Option String := none
  conversationId : Option String := none
  agentName : Option String := none
  nickname : Option String := none
  memories : List String := []
  topic : Option String := none
  topicGreeting : Option String := none
  topicInstruction : Option String := none
  deriving Repr, DecidableEq

/-- Python truthiness of an optional string: None and the empty string are
falsy, every other string is truthy. -/
def optTruthy (o : Option String) : Bool :=
  o.getD "" ≠ ""

/-- Opening piece of the memory block built at main.py line 223, up to and
including the text `Relevant Memories:` (the newline that follows it is
added at the concatenation site). -/
def memHeader (nick : String) : String :=
  "\n---\n[User Context & Memories]\nUser Name: " ++ nick ++ "\nRelevant Memories:"

/-- Closing piece of the memory block of main.py line 223, starting at the
newline before `IMPORTANT:` (the list is followed by a blank line, hence
two newlines: one added at the concatenation site, one leading here). -/
def memFooter (nick : String) : String :=
  "\nIMPORTANT: You MUST use the user\x27s name (" ++ nick ++ ") and their past memories to make the conversation feel warm, personal, and continuous. Do not be generic.\n---\n"

/-- The `memory_context` string of main.py lines 222-223: `lineItems` is
the list comprehension `[f"- \x7bm\x7d" for m in memories]` and is joined
with newlines. -/
def mkMemoryContext (nick : String) (lineItems : List String) : String :=
  memHeader nick ++ "\n" ++ joinSep "\n" lineItems ++ "\n" ++ memFooter nick

/-- The `topic_instruction_text` f-string of main.py line 247. -/
def mkTopicInstr (topicS instrS : String) : String :=
  "\n\n[Current Topic Context]\nThe user has selected to talk about topic: \x27" ++ topicS ++ "\x27.\nSpecial Instruction: " ++ instrS ++ "\n\nTone Requirement: Be warm, empathetic, and intimate (make the user feel \x27亲切\x27). Start the conversation by acknowledging their situation or the topic gently."

/-- The mutable world visible to the composition code: the module-level
AGENTS registry.  Threading it makes the no-mutation claim expressible. -/
structure World where
  agents : List (String × AgentConfig)
  deriving Repr, DecidableEq

/-- The world at process start: the registry as loaded from agents.py. -/
def stdWorld : World := ⟨AGENTS⟩

/-- Config composition, main.py lines 200-250, translated statement by
statement against an explicit registry state.

* line 201/213: `target_agent_id = data.get("agentName", "aura_zh")`
* line 218:     `user_nickname = data.get("nickname", "User")`
* lines 220-223: memory block, built only for a truthy `memories` list
* line 228:     `AGENTS.get(target_agent_id, AGENTS.get("aura_zh"))`
  (`orElse`; the `none` outcome models a registry lacking the default
  entry, which cannot happen for `stdWorld` — see `composeInWorld_std`)
* lines 231-232: `dataclasses.replace` extending the system prompt —
  `replace` derives a fresh value, so the registry component passes
  through unchanged
* lines 235-248: topic customization: greeting override (personalized
  when the nickname is truthy and not the "User" placeholder), then the
  topic instruction block. -/
def composeInWorld (w : World) (p : DispatchPayload) : Option AgentConfig × World :=
  let target := p.agentName.getD "aura_zh"
  let nick := p.nickname.getD "User"
  let memory_context :=
    if p.memories ≠ [] then mkMemoryContext nick (p.memories.map fun m => "- " ++ m) else ""
  let cfg0 : Option AgentConfig := (w.agents.lookup target).orElse fun _ => w.agents.lookup "aura_zh"
  let cfg1 :=
    if memory_context ≠ "" then
      cfg0.map fun c => { c with system_prompt := c.system_prompt ++ memory_context }
    else cfg0
  let cfg2 :=
    if optTruthy p.topic then
      let ca :=
        if optTruthy p.topicGreeting then
          cfg1.map fun c =>
            { c with greeting := some (
                if nick ≠ "" && nick ≠ "User" then
                  "Hi " ++ nick ++ ", " ++ p.topicGreeting.getD ""
                else p.topicGreeting.getD "") }
        else cfg1
      if optTruthy p.topicInstruction then
        ca.map fun c =>
          { c with system_prompt :=
              c.system_prompt ++ mkTopicInstr (p.topic.getD "") (p.topicInstruction.getD "") }
      else ca
    else cfg1
  (cfg2, w)

/-- The session config the entrypoint derives for a well-typed payload.
For `stdWorld` the composition always yields `some`; the `getD` default is
never reached (lemma `composeInWorld_std`). -/
def composeConfig (p : DispatchPayload) : AgentConfig :=
  ((composeInWorld stdWorld p).1).getD AURA_CHINESE

/-- The base persona selected at main.py line 228 for a payload. -/
def baseAgent (p : DispatchPayload) : AgentConfig :=
  (AGENTS.lookup (p.agentName.getD "aura_zh")).getD AURA_CHINESE

/-- The memory block a payload contributes to the instruction text
(empty when `memories` is empty). -/
def memBlockOf (p : DispatchPayload) : String :=
  if p.memories ≠ [] then
    mkMemoryContext (p.nickname.getD "User") (p.memories.map fun m => "- " ++ m)
  else ""

/-- The topic-instruction block a payload contributes to the instruction
text (empty unless both `topic` and `topicInstruction` are truthy). -/
def topicBlockOf (p : DispatchPayload) : String :=
  if optTruthy p.topic && optTruthy p.topicInstruction then
    mkTopicInstr (p.topic.getD "") (p.topicInstruction.getD "")
  else ""

/-- The final greeting of the composed config, as a function of the payload
and the selected base persona. -/
def greetingOf (p : DispatchPayload) (base : AgentConfig) : Option String :=
  if optTruthy p.topic && optTruthy p.topicGreeting then
    some (
      if p.nickname.getD "User" ≠ "" && p.nickname.getD "User" ≠ "User" then
        "Hi " ++ p.nickname.getD "User" ++ ", " ++ p.topicGreeting.getD ""
      else p.topicGreeting.getD "")
  else base.greeting

/-! ## main.py lines 200-250 : the same code over dynamically typed JSON
values, for claims about malformed payloads.  `JVal` is the result of
`json.loads` (JSON numbers are modelled as integers; no claim involves
numeric values).  Python exceptions are `Except.error` carrying the
exception kind. -/

inductive JVal where
  | null : JVal
  | bool (b : Bool) : JVal
  | num (n : Int) : JVal
  | str (s : String) : JVal
  | arr (elems : List JVal) : JVal
  | obj (kvs : List (String × JVal)) : JVal

/-- Python `repr` of a JSON-shaped value (str uses quotes, containers
recurse).  The escaping of quotes inside nested strings is not modelled;
no theorem depends on the repr of nested containers. -/
def pyRepr : JVal → String
  | .null => "None"
  | .bool true => "True"
  | .bool false => "False"
  | .num n => toString n
  | .str s => "\x27" ++ s ++ "\x27"
  | .arr l => "[" ++ joinSep ", " (l.attach.map fun x => pyRepr x.1) ++ "]"
  | .obj kvs =>
      "\x7b" ++ joinSep ", " (kvs.attach.map fun x => "\x27" ++ x.1.1 ++ "\x27: " ++ pyRepr x.1.2) ++ "\x7d"
decreasing_by
  · have := List.sizeOf_lt_of_mem x.2
    simp only [JVal.arr.sizeOf_spec]
    omega
  · have h1 := List.sizeOf_lt_of_mem x.2
    have h2 : sizeOf x.1.2 < sizeOf x.1 := by
      obtain ⟨a, b⟩ := x.1
      simp only [Prod.mk.sizeOf_spec]
      omega
    simp only [JVal.obj.sizeOf_spec]
    omega

/-- Python `str` of a JSON-shaped value, as used by f-string interpolation:
identical to `repr` except on strings. -/
def pyStr : JVal → String
  | .str s => s
  | v => pyRepr v

/-- Python equality test of a JSON-shaped value against a string literal:
true exactly when the value is that string (Python cross-type equality
with a string is always false for the value shapes of JSON). -/
def jvalIsStr (v : JVal) (s : String) : Bool :=
  match v with
  | .str t => t == s
  | _ => false

/-- Python truthiness of a JSON-shaped value. -/
def pyTruthy : JVal → Bool
  | .null => false
  | .bool b => b
  | .num n => n != 0
  | .str s => s != ""
  | .arr l => !l.isEmpty
  | .obj kvs => !kvs.isEmpty

/-- Whether a JSON-shaped value is hashable in Python (lists and dicts are
not and make `dict.get` raise TypeError). -/
def pyHashable : JVal → Bool
  | .arr _ => false
  | .obj _ => false
  | _ => true

/-- The local variables of the entrypoint after the metadata try/except
block (main.py lines 201-225), with their initial values of lines 201-206
as defaults. -/
structure PyVars where
  target_agent_id : JVal := .str "aura_zh"
  user_nickname : JVal := .str "User"
  memory_context : String := ""
  user_id : JVal := .null
  conversation_id : JVal := .null
  topic : JVal := .null
  topic_greeting : JVal := .null
  topic_instruction : JVal := .null

/-- The list comprehension of main.py line 222 over an arbitrary value:
iterating a JSON list yields its elements, iterating a string yields its
one-character substrings, iterating a dict yields its keys; numbers and
booleans are not iterable and raise TypeError.  Each element is rendered
as `"- "` followed by its `str`. -/
def pyIterFStrings : JVal → Except String (List String)
  | .arr l => .ok (l.map fun m => "- " ++ pyStr m)
  | .str s => .ok (s.data.map fun c => "- " ++ String.mk [c])
  | .obj kvs => .ok (kvs.map fun kv => "- " ++ kv.1)
  | _ => .error "TypeError: not iterable"

/-- The body of the try block, main.py lines 210-223, for already parsed
metadata.  On a dict every `data.get` succeeds; on any other value the
first `data.get` raises AttributeError, which the except arm of line 224
catches with every local still at its default.  The only other statement
that can raise is the list comprehension over `memories`; its TypeError is
caught after all other locals were already assigned. -/
def extractVars (data : JVal) : PyVars :=
  match data with
  | .obj kvs =>
    let base : PyVars :=
      { user_id := (kvs.lookup "userId").getD .null
        conversation_id := (kvs.lookup "conversationId").getD .null
        target_agent_id := (kvs.lookup "agentName").getD (.str "aura_zh")
        topic := (kvs.lookup "topic").getD .null
        topic_greeting := (kvs.lookup "topicGreeting").getD .null
        topic_instruction := (kvs.lookup "topicInstruction").getD .null
        user_nickname := (kvs.lookup "nickname").getD (.str "User")
        memory_context := "" }
    let mems := (kvs.lookup "memories").getD (.arr [])
    if pyTruthy mems then
      match pyIterFStrings mems with
      | .ok lineItems =>
          { base with memory_context := mkMemoryContext (pyStr base.user_nickname) lineItems }
      | .error _ => base
    else base
  | _ => {}

/-- The composed config in the dynamically typed view: `greeting` can be
set to a non-string value by the topic override, so it is a `JVal`. -/
structure PyConfig where
  name : String
  system_prompt : String
  voice : String
  tts_model : String
  llm_model : String
  language : String
  greeting : JVal

/-- A registry entry seen through the dynamically typed view. -/
def PyConfig.ofAgent (c : AgentConfig) : PyConfig :=
  { name := c.name
    system_prompt := c.system_prompt
    voice := c.voice
    tts_model := c.tts_model
    llm_model := c.llm_model
    language := c.language
    greeting := match c.greeting with | some g => .str g | none => .null }

/-- `AGENTS.get(target_agent_id, AGENTS.get("aura_zh"))` at main.py line
228, which sits outside the try/except: an unhashable key (a JSON list or
object) makes `dict.get` raise TypeError, and nothing catches it.
`AGENTS.get("aura_zh")` evaluates to AURA_CHINESE. -/
def agentsGetPy (k : JVal) : Except String AgentConfig :=
  if pyHashable k then
    .ok (match k with
      | .str s => (AGENTS.lookup s).getD AURA_CHINESE
      | _ => AURA_CHINESE)
  else .error "TypeError: unhashable type"

/-- main.py lines 228-250 on the extracted locals: resolve the persona
(line 228, can raise), append the memory block (231-232), apply the topic
customization (235-248).  The comparison `user_nickname != "User"` is
Python inequality between possibly differently typed values, which is
structural inequality here. -/
def pyResolveConfig (v : PyVars) : Except String PyConfig := do
  let base ← agentsGetPy v.target_agent_id
  let c0 := PyConfig.ofAgent base
  let c1 :=
    if v.memory_context ≠ "" then
      { c0 with system_prompt := c0.system_prompt ++ v.memory_context }
    else c0
  let c2 :=
    if pyTruthy v.topic then
      let ca :=
        if pyTruthy v.topic_greeting then
          let fg : JVal :=
            if pyTruthy v.user_nickname && !jvalIsStr v.user_nickname "User" then
              .str ("Hi " ++ pyStr v.user_nickname ++ ", " ++ pyStr v.topic_greeting)
            else v.topic_greeting
          { c1 with greeting := fg }
        else c1
      if pyTruthy v.topic_instruction then
        { ca with system_prompt :=
            ca.system_prompt ++ mkTopicInstr (pyStr v.topic) (pyStr v.topic_instruction) }
      else ca
    else c1
  return c2

/-- Metadata processing of the entrypoint after the connection phase:
`parsed` is `none` when there was no usable metadata or `json.loads`
raised (both leave every local at its default, main.py lines 200-225),
and `some data` when parsing produced a value.  The result is the config
the session is started with, or the uncaught exception of line 228. -/
def pyProcess (parsed : Option JVal) : Except String PyConfig :=
  pyResolveConfig (match parsed with | none => {} | some d => extractVars d)

/-! ## main.py lines 169-185 : the connection retry loop -/

/-- `max_connect_retries` of main.py line 170. -/
def maxConnectRetries : Nat := 3

/-- Per-attempt timeout of `asyncio.wait_for(ctx.connect(), timeout=10.0)`
at main.py line 175, in seconds. -/
def connectTimeoutSeconds : ℚ := 10

/-- Inter-attempt backoff of `asyncio.sleep(1.5)` at main.py line 182, in
seconds. -/
def connectBackoffSeconds : ℚ := 3 / 2

/-- Observable outcome of the retry loop: how many connection attempts
were issued, which backoff sleeps ran, and whether a connection was
established. -/
structure ConnectTrace where
  attempts : Nat
  sleeps : List ℚ
  connected : Bool
  deriving Repr, DecidableEq

/-- The loop of main.py lines 172-182: attempt `i`, break on success
(skipping the backoff), sleep `1.5` after a failure unless this was the
last attempt.  `outcome i` tells whether attempt `i` connects within its
timeout, `remaining` is how many iterations of `range` are left. -/
def runConnect (outcome : Nat → Bool) : Nat → Nat → ConnectTrace
  | _, 0 => ⟨0, [], false⟩
  | i, r + 1 =>
    if outcome i then ⟨1, [], true⟩
    else
      let rest := runConnect outcome (i + 1) r
      ⟨rest.attempts + 1, (if r = 0 then [] else [connectBackoffSeconds]) ++ rest.sleeps,
        rest.connected⟩

/-- The whole retry phase of the entrypoint. -/
def connectLoop (outcome : Nat → Bool) : ConnectTrace :=
  runConnect outcome 0 maxConnectRetries

/-- How far the entrypoint got: `aborted` is the early `return` of main.py
line 185 (no config is ever composed, no engine constructed), `crashed`
is an uncaught exception from line 228, `started` reaches the engine with
a composed config. -/
inductive EntryPhase where
  | aborted (t : ConnectTrace)
  | crashed (t : ConnectTrace) (e : String)
  | started (t : ConnectTrace) (cfg : PyConfig)

/-- The entrypoint of main.py lines 166-257: connect with retries, then
process metadata and start the agent. -/
def entryRun (outcome : Nat → Bool) (parsed : Option JVal) : EntryPhase :=
  let t := connectLoop outcome
  if t.connected then
    match pyProcess parsed with
    | .ok c => .started t c
    | .error e => .crashed t e
  else .aborted t

/-- Whether a run ever composed a session config or invoked the engine. -/
def entryReachesConfig : EntryPhase → Bool
  | .aborted _ => false
  | .crashed _ _ => true
  | .started _ _ => true

/-! ## main.py lines 90-145 : turn content extraction and the agent-turn
logging hook of `AuraAgent.start` -/

/-- The `content` attribute of a chat item: either a plain string or a
list of parts (each again such a value), mirroring the message shapes the
engine produces. -/
inductive MsgContent where
  | ofString (s : String) : MsgContent
  | ofList (parts : List MsgContent) : MsgContent

/-- A chat context item as read by the hook: its `type` and `role`
discriminators, its `text_content` attribute when the object carries one,
and its `content` attribute. -/
structure ChatItem where
  type : String
  role : String
  text_content : Option String
  content : MsgContent

/-- `AuraAgent._get_text_content`, main.py lines 90-99: prefer the
`text_content` attribute when present; otherwise use `content`, joining
the string parts of a list with newlines. -/
def get_text_content (item : ChatItem) : String :=
  match item.text_content with
  | some t => t
  | none =>
    match item.content with
    | .ofString s => s
    | .ofList parts =>
        joinSep "\n" (parts.filterMap fun x =>
          match x with
          | .ofString s => some s
          | .ofList _ => none)

/-- The scan of main.py lines 126-130: walk `items` in reverse and stop at
the first message item with the assistant role. -/
def lastAssistant (items : List ChatItem) : Option ChatItem :=
  items.reverse.find? fun it => it.type == "message" && it.role == "assistant"

/-- Per-session state the hook reads and writes: the dedup cache
`_last_agent_content` (initialized to the empty string in `__init__`) and
the calls handed to the transcript sink so far, as (role, content). -/
structure SessionObs where
  last_agent_content : String
  recorder_calls : List (String × String)
  deriving Repr, DecidableEq

/-- `_check_and_log_agent`, main.py lines 118-141, run after the settle
delay: read the latest assistant message from the agent chat context,
return if there is none, skip if its text equals the dedup cache
(the `hasattr` guard always holds — `__init__` sets the cache), otherwise
update the cache and hand the text to the recorder when one exists.
Python `content or ""` is the identity on strings, since the only falsy
string is the empty string itself. -/
def checkAndLogAgent (recorder_present : Bool) (items : List ChatItem)
    (st : SessionObs) : SessionObs :=
  if items.isEmpty then st
  else
    match lastAssistant items with
    | none => st
    | some it =>
      let content := get_text_content it
      if st.last_agent_content = content then st
      else
        { last_agent_content := content
          recorder_calls :=
            st.recorder_calls ++ (if recorder_present then [("agent", content)] else []) }

/-- The guard at main.py line 144: the logging task is created exactly
when the previous engine state was `speaking`, whatever the new state. -/
def agentLogFires (old_state _new_state : String) : Bool :=
  old_state == "speaking"

/-- The settle delay of `asyncio.sleep(0.5)` at main.py line 120, in
seconds. -/
def settleDelaySeconds : ℚ := 1 / 2

/-- The greeting grace delay of `asyncio.sleep(1)` at main.py line 157,
in seconds. -/
def greetingGraceSeconds : ℚ := 1

/-! ## services/recorder.py : TranscriptRecorder -/

/-- Outcome of one HTTP POST: a response with status and body text, or a
raised transport exception. -/
inductive HttpResult where
  | status (code : Nat) (text : String) : HttpResult
  | exn (msg : String) : HttpResult
  deriving Repr, DecidableEq

/-- The JSON body of a transcript write, recorder.py lines 20-26. -/
structure TranscriptPost where
  userId : String
  conversationId : String
  role : String
  content : String
  roomName : String
  deriving Repr, DecidableEq

/-- Everything one `record` call does that is visible from outside: the
outbound write attempts it issues, what it logs at each level, and the
exception it lets escape to the caller (always `none`, recorder.py wraps
the network call in try/except). -/
structure RecordTrace where
  posts : List TranscriptPost
  warnings : List String
  errors : List String
  debugs : List String
  raised : Option String
  deriving Repr, DecidableEq

/-- `TranscriptRecorder.__init__`, recorder.py lines 6-11: the identifiers
(as passed, possibly None or empty) and the endpoint URL derived from the
API_BASE_URL environment value or its default. -/
structure TranscriptRecorder where
  user_id : Option String
  conversation_id : Option String
  room_name : String
  api_url : String
  deriving Repr, DecidableEq

/-- Constructor including the env lookup of recorder.py line 10. -/
def mkTranscriptRecorder (envApiBase : Option String)
    (user_id conversation_id : Option String) (room_name : String) : TranscriptRecorder :=
  { user_id := user_id
    conversation_id := conversation_id
    room_name := room_name
    api_url := envApiBase.getD "https://api.larksings.com" ++ "/api/va/transcripts" }

/-- `TranscriptRecorder.record`, recorder.py lines 13-37: return silently
when either identifier is falsy; otherwise issue exactly one POST and
log depending on its outcome: debug on 200, warning on any other status,
error on a raised transport exception.  No branch re-raises and no branch
retries. -/
def TranscriptRecorder.record (r : TranscriptRecorder) (role content : String)
    (http : HttpResult) : RecordTrace :=
  if r.user_id.getD "" = "" || r.conversation_id.getD "" = "" then
    ⟨[], [], [], [], none⟩
  else
    let payload : TranscriptPost :=
      ⟨r.user_id.getD "", r.conversation_id.getD "", role, content, r.room_name⟩
    match http with
    | .status code text =>
        if code ≠ 200 then
          ⟨[payload], ["Failed to record transcript: " ++ toString code ++ " - " ++ text], [], [], none⟩
        else ⟨[payload], [], [], ["Transcript saved: [" ++ role ++ "]"], none⟩
    | .exn msg =>
        ⟨[payload], [], ["Error recording transcript: " ++ msg], [], none⟩

/-- `AuraAgent.__init__`, main.py lines 29-33: a recorder exists only when
both identifiers are truthy. -/
def auraRecorderInit (user_id conversation_id : Option String)
    (room_name : String) : Option TranscriptRecorder :=
  if optTruthy user_id && optTruthy conversation_id then
    some (mkTranscriptRecorder none user_id conversation_id room_name)
  else none

/-! ## MemoryExtractor (not present under src/) -/

/-- A memory persistence write, shaped as the spec external interface
section gives it. -/
structure MemoryWrite where
  type : String
  content : String
  importance : Nat
  userId : String
  deriving Repr, DecidableEq

/-- Observable behavior of one extract-and-persist run. -/
structure MemTrace where
  persisted : List MemoryWrite
  failureLogs : List String
  raised : Option String
  deriving Repr, DecidableEq

/-- Modelled from the spec: the repositorys MemoryExtractor component is
not among the files under src/ (only main.py, agents.py, recorder.py and a
key-test script are).  Spec 4.5: collapse the turn history to at most the
last 20 turns. -/
def lastTurns (hist : List (String × String)) : List (String × String) :=
  hist.drop (hist.length - 20)

/-- Modelled from the spec: well-formed role/content pairs (spec 4.5), a
known role with non-empty content. -/
def wellFormedTurn (t : String × String) : Bool :=
  (t.1 == "user" || t.1 == "agent") && t.2 != ""

/-- Modelled from the spec: the transcript-style prompt synthesized from
the filtered turns (spec 4.5). -/
def memoryPrompt (turns : List (String × String)) : String :=
  joinSep "\n" (turns.map fun t => t.1 ++ ": " ++ t.2)

/-- Modelled from the spec: `extractAndPersist(turnHistory, userId)` of
spec 4.5 and the memory write interface of spec 6.  No-op when `userId`
is unset; summarize the prompt through the capability `summarize`; the
sentinel result "NONE" suppresses persistence; otherwise exactly one
persistence write is issued, whose failure is logged and neither retried
nor re-raised.  The spec fixes no importance value; 5 is used as a
placeholder constant. -/
def extractAndPersist (userId : Option String) (hist : List (String × String))
    (summarize : String → String) (persistHttp : HttpResult) : MemTrace :=
  if userId.getD "" = "" then ⟨[], [], none⟩
  else
    let turns := (lastTurns hist).filter wellFormedTurn
    let result := summarize (memoryPrompt turns)
    if result = "NONE" then ⟨[], [], none⟩
    else
      let write : MemoryWrite := ⟨"fact", result, 5, userId.getD ""⟩
      match persistHttp with
      | .status code _ =>
          if code ≠ 200 then ⟨[write], ["memory write failed with status " ++ toString code], none⟩
          else ⟨[write], [], none⟩
      | .exn msg => ⟨[write], ["memory write failed: " ++ msg], none⟩

/-! ## Helper lemmas: lines, segments, and the composition closed form -/

theorem splitNL_ne_nil (l : List Char) : splitNL l ≠ [] := by
  induction l with
  | nil => simp [splitNL]
  | cons c cs ih =>
    simp only [splitNL]
    split
    · simp
    · cases h : splitNL cs with
      | nil => simp
      | cons a as => simp

theorem splitNL_head_nolf (x b : List Char) (hx : '\n' ∉ x) :
    splitNL (x ++ '\n' :: b) = x :: splitNL b := by
  induction x with
  | nil => simp [splitNL]
  | cons c cs ih =>
    have hc : c ≠ '\n' := fun h => hx (h ▸ List.mem_cons_self c cs)
    have hcs : '\n' ∉ cs := fun h => hx (List.mem_cons_of_mem c h)
    simp only [List.cons_append, splitNL, if_neg hc]
    rw [show cs.append ('\n' :: b) = cs ++ '\n' :: b from rfl, ih hcs]

theorem splitNL_suffix (a b : List Char) :
    ∃ p, p ≠ [] ∧ splitNL (a ++ '\n' :: b) = p ++ splitNL b := by
  induction a with
  | nil => exact ⟨[[]], by simp, by simp [splitNL]⟩
  | cons c cs ih =>
    obtain ⟨p, hp, hep⟩ := ih
    by_cases hc : c = '\n'
    · exact ⟨[] :: p, by simp, by simp [hc, List.cons_append, splitNL, hep]⟩
    · cases p with
      | nil => exact absurd rfl hp
      | cons q qs =>
        refine ⟨(c :: q) :: qs, by simp, ?_⟩
        simp only [List.cons_append, splitNL, if_neg hc]
        rw [show cs.append ('\n' :: b) = cs ++ '\n' :: b from rfl, hep]
        rfl

theorem mem_splitNL_lift (a b : List Char) (l : List Char) (h : l ∈ splitNL b) :
    l ∈ splitNL (a ++ '\n' :: b) := by
  obtain ⟨p, _, hep⟩ := splitNL_suffix a b
  rw [hep]
  exact List.mem_append_right p h

theorem listStartsWith_append (sub r : List Char) : listStartsWith sub (sub ++ r) = true := by
  induction sub with
  | nil => rfl
  | cons a as ih => simp [listStartsWith, ih]

theorem containsSeg_self_append (sub post : List Char) :
    containsSeg sub (sub ++ post) = true := by
  cases sub with
  | nil => cases post <;> simp [containsSeg, listStartsWith]
  | cons a as =>
    rw [List.cons_append]
    simp only [containsSeg]
    have h := listStartsWith_append (a :: as) post
    rw [List.cons_append] at h
    simp [h]

theorem containsSeg_append_left (sub pre rest : List Char)
    (h : containsSeg sub rest = true) : containsSeg sub (pre ++ rest) = true := by
  induction pre with
  | nil => simpa using h
  | cons c cs ih => simp [containsSeg, ih]

theorem containsSeg_of_parts (sub pre post : List Char) :
    containsSeg sub (pre ++ (sub ++ post)) = true :=
  containsSeg_append_left _ _ _ (containsSeg_self_append _ _)

theorem mem_splitNL_joinSep (ms : List String) (m : String) (tail : List Char)
    (hm : m ∈ ms) (hnl : '\n' ∉ m.data) :
    ("- " ++ m).data ∈
      splitNL ((joinSep "\n" (ms.map fun x => "- " ++ x)).data ++ '\n' :: tail) := by
  have hbul : '\n' ∉ ("- " ++ m).data := by
    rw [String.data_append]
    intro hmem
    rcases List.mem_append.mp hmem with h1 | h2
    · revert h1; decide
    · exact hnl h2
  induction ms with
  | nil => cases hm
  | cons a rest ih =>
    cases rest with
    | nil =>
      have hma : m = a := by simpa using hm
      subst hma
      rw [show ([m].map fun x => "- " ++ x) = ["- " ++ m] from rfl,
        show joinSep "\n" ["- " ++ m] = "- " ++ m from rfl]
      rw [splitNL_head_nolf _ _ hbul]
      exact List.mem_cons_self _ _
    | cons b rest2 =>
      rw [show ((a :: b :: rest2).map fun x => "- " ++ x)
            = ("- " ++ a) :: ((b :: rest2).map fun x => "- " ++ x) from rfl]
      rw [show joinSep "\n" (("- " ++ a) :: ((b :: rest2).map fun x => "- " ++ x))
            = ("- " ++ a) ++ "\n" ++ joinSep "\n" ((b :: rest2).map fun x => "- " ++ x) from rfl]
      have hdata : (("- " ++ a) ++ "\n" ++ joinSep "\n" ((b :: rest2).map fun x => "- " ++ x)).data
            ++ '\n' :: tail
          = ("- " ++ a).data ++ '\n' ::
            ((joinSep "\n" ((b :: rest2).map fun x => "- " ++ x)).data ++ '\n' :: tail) := by
        simp [String.data_append, List.append_assoc]
      rw [hdata]
      rcases List.mem_cons.mp hm with hma | hmr
      · subst hma
        rw [splitNL_head_nolf _ _ hbul]
        exact List.mem_cons_self _ _
      · exact mem_splitNL_lift _ _ _ (ih hmr)

theorem mkMemoryContext_ne_empty (nick : String) (lineItems : List String) :
    mkMemoryContext nick lineItems ≠ "" := by
  intro h
  have hd := congrArg String.data h
  rw [mkMemoryContext] at hd
  simp only [String.data_append] at hd
  simp [List.append_eq_nil] at hd

/-- Closed form of the composition over the standard registry: the base
persona, extended by exactly the applicable memory block, then exactly the
applicable topic block, with the greeting resolved by `greetingOf`.
The registry is returned untouched. -/
theorem composeInWorld_std (p : DispatchPayload) :
    composeInWorld stdWorld p =
      (some { baseAgent p with
          system_prompt := (baseAgent p).system_prompt ++ memBlockOf p ++ topicBlockOf p
          greeting := greetingOf p (baseAgent p) }, stdWorld) := by
  have hbase : ((stdWorld.agents.lookup (p.agentName.getD "aura_zh")).orElse
      fun _ => stdWorld.agents.lookup "aura_zh") = some (baseAgent p) := by
    unfold baseAgent stdWorld
    cases h : AGENTS.lookup (p.agentName.getD "aura_zh") with
    | some c => simp [h]
    | none => simp [h]; rfl
  by_cases hm : p.memories = [] <;>
  by_cases ht : optTruthy p.topic <;>
  by_cases htg : optTruthy p.topicGreeting <;>
  by_cases hti : optTruthy p.topicInstruction <;>
  simp [composeInWorld, hbase, memBlockOf, topicBlockOf, greetingOf,
    hm, ht, htg, hti, mkMemoryContext_ne_empty, String.append_empty]

/-- The composed config in closed form. -/
theorem composeConfig_eq (p : DispatchPayload) :
    composeConfig p =
      { baseAgent p with
        system_prompt := (baseAgent p).system_prompt ++ memBlockOf p ++ topicBlockOf p
        greeting := greetingOf p (baseAgent p) } := by
  unfold composeConfig
  rw [composeInWorld_std]
  rfl

/-! ## Claim theorems -/

/-- C1: at session teardown MemoryExtractor is invoked with the turn
history and userId.  It is a no-op when userId is unset; a summarization
result of exactly the sentinel "NONE" performs zero persistence calls; on
any non-sentinel result exactly one outbound persistence write happens per
session, whose failure is logged, not retried, and not surfaced to the
caller (raised is always none). -/
theorem c1_memory_extractor_contract (userId : Option String)
    (hist : List (String × String)) (summarize : String → String) (persistHttp : HttpResult) :
    (userId.getD "" = "" →
      extractAndPersist userId hist summarize persistHttp = ⟨[], [], none⟩) ∧
    (summarize (memoryPrompt ((lastTurns hist).filter wellFormedTurn)) = "NONE" →
      (extractAndPersist userId hist summarize persistHttp).persisted = []) ∧
    (userId.getD "" ≠ "" →
      summarize (memoryPrompt ((lastTurns hist).filter wellFormedTurn)) ≠ "NONE" →
      (extractAndPersist userId hist summarize persistHttp).persisted.length = 1 ∧
      (extractAndPersist userId hist summarize persistHttp).raised = none ∧
      (∀ code text, persistHttp = .status code text → code ≠ 200 →
        (extractAndPersist userId hist summarize persistHttp).failureLogs.length = 1) ∧
      (∀ msg, persistHttp = .exn msg →
        (extractAndPersist userId hist summarize persistHttp).failureLogs.length = 1)) := by
  refine ⟨?_, ?_, ?_⟩
  · intro h
    simp [extractAndPersist, h]
  · intro h
    unfold extractAndPersist
    by_cases hu : userId.getD "" = "" <;> simp [hu, h]
  · intro hu hs
    unfold extractAndPersist
    cases persistHttp with
    | status code text =>
      by_cases h200 : code = 200 <;> simp [hu, hs, h200]
    | exn msg => simp [hu, hs]

/-- C1 witness: a concrete run with a set userId, a non-sentinel summary
and a failing persistence write performs exactly one write and logs the
failure. -/
theorem c1_memory_extractor_contract_witness :
    (extractAndPersist (some "u7") [("user", "hi")] (fun _ => "likes tea")
        (.status 500 "x")).persisted.length = 1 ∧
    (extractAndPersist (some "u7") [("user", "hi")] (fun _ => "likes tea")
        (.status 500 "x")).failureLogs.length = 1 := by
  have h := (c1_memory_extractor_contract (some "u7") [("user", "hi")]
    (fun _ => "likes tea") (.status 500 "x")).2.2 (by decide) (by decide)
  exact ⟨h.1, h.2.2.1 500 "x" rfl (by decide)⟩

/-- C2: for every dispatch payload whose agentName does not name a
registry entry, composition returns the default persona (aura_zh) base
instruction text byte-for-byte plus only the applicable memory and topic
blocks, and never raises: over the standard registry the composition
always produces a value (first conjunct). -/
theorem c2_unknown_agent_default (p : DispatchPayload)
    (h : ∀ a, p.agentName = some a → AGENTS.lookup a = none) :
    (composeInWorld stdWorld p).1 = some (composeConfig p) ∧
    (composeConfig p).system_prompt =
      AURA_CHINESE.system_prompt ++ memBlockOf p ++ topicBlockOf p := by
  have hb : baseAgent p = AURA_CHINESE := by
    cases ha : p.agentName with
    | none => simp [baseAgent, ha]; rfl
    | some a => simp [baseAgent, ha, h a ha]
  refine ⟨?_, ?_⟩
  · rw [composeInWorld_std, composeConfig_eq]
  · rw [composeConfig_eq, hb]

/-- C2 witness: the unknown agent name "zeus" falls back to the default
persona instruction text plus the applicable blocks. -/
theorem c2_unknown_agent_default_witness :
    (composeConfig { agentName := some "zeus" }).system_prompt =
      AURA_CHINESE.system_prompt ++ memBlockOf { agentName := some "zeus" }
        ++ topicBlockOf { agentName := some "zeus" } :=
  (c2_unknown_agent_default { agentName := some "zeus" }
    (by intro a ha; cases ha; decide)).2

/-- C3 counterexample: a payload carrying topicGreeting and nickname but
no topic keeps the persona default greeting — the claim as stated (which
does not require a topic) fails on this input, because the greeting
override of main.py line 237 sits inside the `if topic:` branch of line
235. -/
theorem c3_greeting_counterexample :
    (composeConfig { nickname := some "Alex", topicGreeting := some "let\x27s talk" }).greeting
      ≠ some "Hi Alex, let\x27s talk" ∧
    (composeConfig { nickname := some "Alex", topicGreeting := some "let\x27s talk" }).greeting
      = AURA_CHINESE.greeting := by
  constructor <;> decide

/-- C3 (amended): for a payload that also carries a truthy topic, with
topicGreeting "let\x27s talk": nickname "Alex" gives exactly
"Hi Alex, let\x27s talk", and an absent nickname or the generic
placeholder "User" gives the topicGreeting unmodified. -/
theorem c3_topic_greeting_personalized (p : DispatchPayload)
    (ht : optTruthy p.topic = true)
    (hg : p.topicGreeting = some "let\x27s talk") :
    (p.nickname = some "Alex" →
      (composeConfig p).greeting = some "Hi Alex, let\x27s talk") ∧
    ((p.nickname = none ∨ p.nickname = some "User") →
      (composeConfig p).greeting = some "let\x27s talk") := by
  rw [composeConfig_eq]
  simp only [optTruthy, ne_eq, decide_not, Bool.not_eq_true', decide_eq_false_iff_not] at ht
  constructor
  · intro hn
    simp [greetingOf, ht, hg, hn, optTruthy]
  · rintro (hn | hn) <;> simp [greetingOf, ht, hg, hn, optTruthy]

/-- C3 witness: a concrete payload with topic, topicGreeting and nickname
"Alex" composes the personalized greeting. -/
theorem c3_topic_greeting_personalized_witness :
    (composeConfig { nickname := some "Alex", topic := some "worklife", topicGreeting := some "let\x27s talk" }).greeting = some "Hi Alex, let\x27s talk" :=
  (c3_topic_greeting_personalized
    { nickname := some "Alex", topic := some "worklife", topicGreeting := some "let\x27s talk" }
    (by decide) rfl).1 rfl

set_option maxRecDepth 8192 in
/-- C4 counterexample: the claim quantifies over arbitrary memory item
strings, but an item containing a newline is split across two lines by
the block construction, so no single line of the composed instruction
contains it: with memories = ["a\nb"] (a non-empty list) no line of the
composed instruction contains the item. -/
theorem c4_memories_line_counterexample :
    ({ memories := ["a\nb"] } : DispatchPayload).memories ≠ [] ∧
    hasLineContaining (composeConfig { memories := ["a\nb"] }).system_prompt "a\nb" = false := by
  constructor <;> decide

/-- C4 (amended): for every payload with a non-empty memories list, every
memory item that contains no newline appears on a line of its own in the
composed system instruction, and the instruction contains the display
name (nickname, or the "User" default) at least once. -/
theorem c4_memories_lines (p : DispatchPayload) (hne : p.memories ≠ []) :
    (∀ m ∈ p.memories, '\n' ∉ m.data →
      hasLineContaining (composeConfig p).system_prompt m = true) ∧
    strContains (composeConfig p).system_prompt (p.nickname.getD "User") = true := by
  have hprompt : (composeConfig p).system_prompt
      = (baseAgent p).system_prompt
          ++ mkMemoryContext (p.nickname.getD "User") (p.memories.map fun m => "- " ++ m)
          ++ topicBlockOf p := by
    rw [composeConfig_eq]
    simp [memBlockOf, hne]
  constructor
  · intro m hm hnl
    have hdata : (composeConfig p).system_prompt.data
        = ((baseAgent p).system_prompt.data ++ (memHeader (p.nickname.getD "User")).data) ++ '\n' ::
          ((joinSep "\n" (p.memories.map fun x => "- " ++ x)).data ++ '\n' ::
            ((memFooter (p.nickname.getD "User")).data ++ (topicBlockOf p).data)) := by
      rw [hprompt, mkMemoryContext]
      simp [String.data_append, List.append_assoc]
    unfold hasLineContaining
    rw [hdata]
    apply List.any_eq_true.mpr
    refine ⟨("- " ++ m).data, ?_, ?_⟩
    · exact mem_splitNL_lift _ _ _ (mem_splitNL_joinSep p.memories m _ hm hnl)
    · have hb : ("- " ++ m).data = ['-', ' '] ++ (m.data ++ []) := by
        simp [String.data_append]
      rw [hb]
      exact containsSeg_of_parts m.data ['-', ' '] []
  · have hdata2 : (composeConfig p).system_prompt.data
        = ((baseAgent p).system_prompt.data
            ++ ("\n---\n[User Context & Memories]\nUser Name: " : String).data)
          ++ ((p.nickname.getD "User").data
            ++ (("\nRelevant Memories:\n" : String).data
              ++ ((joinSep "\n" (p.memories.map fun x => "- " ++ x)).data
                ++ (("\n" : String).data
                  ++ ((memFooter (p.nickname.getD "User")).data ++ (topicBlockOf p).data))))) := by
      rw [hprompt, mkMemoryContext, memHeader]
      simp [String.data_append, List.append_assoc]
    unfold strContains
    rw [hdata2]
    exact containsSeg_of_parts _ _ _

/-- C4 witness: the spec scenario payload with nickname Sam and the
memory "likes hiking": the item is on a line of its own and the display
name occurs in the instruction. -/
theorem c4_memories_lines_witness :
    hasLineContaining (composeConfig { nickname := some "Sam", memories := ["likes hiking"] }).system_prompt "likes hiking" = true ∧
    strContains (composeConfig { nickname := some "Sam", memories := ["likes hiking"] }).system_prompt "Sam" = true :=
  ⟨(c4_memories_lines { nickname := some "Sam", memories := ["likes hiking"] } (by decide)).1
      "likes hiking" (by decide) (by decide),
    (c4_memories_lines { nickname := some "Sam", memories := ["likes hiking"] } (by decide)).2⟩

/-- C5: composition never mutates the persona registry: for every payload
the registry state after composing equals the state before (so every
entry keeps its base instruction text and greeting), and composing a
second time against the registry left by the first run yields the same
config. -/
theorem c5_registry_never_mutated (p : DispatchPayload) :
    (composeInWorld stdWorld p).2 = stdWorld ∧
    (composeInWorld ((composeInWorld stdWorld p).2) p).1 = (composeInWorld stdWorld p).1 :=
  ⟨rfl, rfl⟩

/-- C6: agent-turn logging fires on the transition out of speaking (in
particular into listening); after the 0.5 second settle delay the latest
agent utterance is read and handed to the transcript sink, skipped when
textually identical to the last emitted one: two consecutive identical
readings produce exactly one sink call. -/
theorem c6_agent_turn_dedup (items : List ChatItem) (st : SessionObs) (it : ChatItem)
    (hfind : lastAssistant items = some it)
    (hnew : st.last_agent_content ≠ get_text_content it) :
    (checkAndLogAgent true items (checkAndLogAgent true items st)).recorder_calls
      = st.recorder_calls ++ [("agent", get_text_content it)] ∧
    agentLogFires "speaking" "listening" = true ∧
    settleDelaySeconds = 1 / 2 := by
  have hne : items.isEmpty = false := by
    cases items with
    | nil => simp [lastAssistant] at hfind
    | cons a l => rfl
  have h1 : checkAndLogAgent true items st =
      { last_agent_content := get_text_content it
        recorder_calls := st.recorder_calls ++ [("agent", get_text_content it)] } := by
    simp [checkAndLogAgent, hne, hfind, hnew]
  have h2 : checkAndLogAgent true items (checkAndLogAgent true items st)
      = checkAndLogAgent true items st := by
    rw [h1]
    simp [checkAndLogAgent, hne, hfind]
  rw [h2, h1]
  exact ⟨rfl, rfl, rfl⟩

/-- C6 witness: two consecutive identical readings of one assistant
message, starting from a fresh session state, hand exactly one call to
the sink. -/
theorem c6_agent_turn_dedup_witness :
    (checkAndLogAgent true [⟨"message", "assistant", some "Hello there", .ofString "Hello there"⟩]
      (checkAndLogAgent true [⟨"message", "assistant", some "Hello there", .ofString "Hello there"⟩]
        ⟨"", []⟩)).recorder_calls = [("agent", "Hello there")] :=
  (c6_agent_turn_dedup [⟨"message", "assistant", some "Hello there", .ofString "Hello there"⟩]
    ⟨"", []⟩ ⟨"message", "assistant", some "Hello there", .ofString "Hello there"⟩
    rfl (by decide)).1

/-- C7: connection establishment is attempted at most 3 times with a 10
second per-attempt timeout and 1.5 second inter-attempt backoff; when all
3 attempts fail the entrypoint returns having issued exactly 3 attempts
and 2 backoff sleeps, without ever composing a session config or invoking
the engine. -/
theorem c7_connect_retry_abort (outcome : Nat → Bool) (parsed : Option JVal)
    (h : ∀ i, i < maxConnectRetries → outcome i = false) :
    entryRun outcome parsed
      = .aborted ⟨3, [connectBackoffSeconds, connectBackoffSeconds], false⟩ ∧
    entryReachesConfig (entryRun outcome parsed) = false ∧
    maxConnectRetries = 3 ∧ connectTimeoutSeconds = 10 ∧ connectBackoffSeconds = 3 / 2 := by
  have h0 := h 0 (by decide)
  have h1 := h 1 (by decide)
  have h2 := h 2 (by decide)
  have hloop : connectLoop outcome = ⟨3, [connectBackoffSeconds, connectBackoffSeconds], false⟩ := by
    simp [connectLoop, maxConnectRetries, runConnect, h0, h1, h2]
  refine ⟨?_, ?_, rfl, rfl, rfl⟩
  · simp [entryRun, hloop]
  · simp [entryRun, hloop, entryReachesConfig]

/-- C7 witness: the always-failing connect oracle aborts after 3 attempts
and 2 backoff sleeps. -/
theorem c7_connect_retry_abort_witness :
    entryRun (fun _ => false) none
      = .aborted ⟨3, [connectBackoffSeconds, connectBackoffSeconds], false⟩ :=
  (c7_connect_retry_abort (fun _ => false) none (fun _ _ => rfl)).1

/-- C8 counterexample: a record call with the conversation identifier
unset performs zero network calls and returns without error, but — in
contradiction with the claim — logs nothing: recorder.py lines 17-18 are
a bare `return` with no warning, so the whole trace (posts, warnings,
errors, debugs, raised exception) is empty. -/
theorem c8_unset_conversation_counterexample :
    TranscriptRecorder.record
      ⟨some "u1", none, "room1", "https://api.larksings.com/api/va/transcripts"⟩
      "user" "hello" (.status 200 "ok") = ⟨[], [], [], [], none⟩ := by
  decide

/-- C8 (amended): calling record with an unset (or empty) conversation or
user identifier performs zero network calls, returns without error, and
logs nothing at all (in particular no warning). -/
theorem c8_unset_id_noop (r : TranscriptRecorder) (role content : String) (http : HttpResult)
    (h : r.user_id.getD "" = "" ∨ r.conversation_id.getD "" = "") :
    r.record role content http = ⟨[], [], [], [], none⟩ := by
  unfold TranscriptRecorder.record
  rcases h with h | h <;> simp [h]

/-- C8 witness: a recorder with no user identifier does nothing. -/
theorem c8_unset_id_noop_witness :
    TranscriptRecorder.record ⟨none, some "c1", "room1", "u"⟩ "agent" "hi" (.exn "boom")
      = ⟨[], [], [], [], none⟩ :=
  c8_unset_id_noop ⟨none, some "c1", "room1", "u"⟩ "agent" "hi" (.exn "boom") (Or.inl rfl)

/-- C9: each record call with identity set performs exactly one outbound
write attempt; a non-200 response logs one warning and a transport
failure logs one error; nothing is retried and no exception or error
signal reaches the caller (`raised` is always none). -/
theorem c9_record_best_effort (r : TranscriptRecorder) (role content : String)
    (http : HttpResult)
    (hu : r.user_id.getD "" ≠ "") (hc : r.conversation_id.getD "" ≠ "") :
    (r.record role content http).posts
      = [⟨r.user_id.getD "", r.conversation_id.getD "", role, content, r.room_name⟩] ∧
    (r.record role content http).raised = none ∧
    (∀ code text, http = .status code text → code ≠ 200 →
      (r.record role content http).warnings.length = 1 ∧
      (r.record role content http).errors = []) ∧
    (∀ msg, http = .exn msg →
      (r.record role content http).errors.length = 1 ∧
      (r.record role content http).warnings = []) := by
  unfold TranscriptRecorder.record
  cases http with
  | status code text =>
    by_cases h200 : code = 200 <;>
      simp [hu, hc, h200]
  | exn msg => simp [hu, hc]

/-- C9 witness: a concrete call with identity set and a 500 response
issues exactly one write attempt and logs exactly one warning. -/
theorem c9_record_best_effort_witness :
    (TranscriptRecorder.record ⟨some "u2", some "c2", "room2", "u"⟩ "user" "hey"
        (.status 500 "server error")).posts
      = [⟨"u2", "c2", "user", "hey", "room2"⟩] ∧
    (TranscriptRecorder.record ⟨some "u2", some "c2", "room2", "u"⟩ "user" "hey"
        (.status 500 "server error")).warnings.length = 1 :=
  ⟨(c9_record_best_effort ⟨some "u2", some "c2", "room2", "u"⟩ "user" "hey"
      (.status 500 "server error") (by decide) (by decide)).1,
    ((c9_record_best_effort ⟨some "u2", some "c2", "room2", "u"⟩ "user" "hey"
      (.status 500 "server error") (by decide) (by decide)).2.2.1 500 "server error" rfl
      (by decide)).1⟩

/-- C10: the claim says metadata resolution is non-fatal for every
malformed payload, and the spec data model says a malformed field must
not crash resolution; the code violates this: for the valid JSON payload
with agentName set to a JSON list (an unhashable Python value),
`AGENTS.get(target_agent_id, ...)` at main.py line 228 — outside the
try/except of lines 209-225 — raises TypeError, which escapes the
entrypoint.  By contrast, unparseable JSON is caught and the session
proceeds with the full default configuration (second conjunct). -/
theorem c10_unhashable_agent_name_crash :
    pyProcess (some (.obj [("agentName", .arr [])])) = .error "TypeError: unhashable type" ∧
    pyProcess none = .ok (PyConfig.ofAgent AURA_CHINESE) :=
  ⟨rfl, rfl⟩

end Aura


